import Mathlib

/-!
# Change-notification supervisors of `ibazel/command`

Shallow embedding of `notify_command.go` (stdin variant) and
`signal_command.go` (signal variant).

The supervisors are stateful Go objects that talk to external collaborators
(the Bazel builder, the process group, the root process, the logger).  The
embedding passes the supervisor record explicitly and threads a *history*:
the chronological list of calls made on the collaborators.  What a
collaborator answers is given by an `Env`, whose answers may depend on the
whole history so far, so every theorem quantified over `Env` covers every
deterministic behaviour of the collaborators.

A method call on a nil interface value (`c.pg`, `c.stdin`) is a Go run-time
panic; it is modelled by `Except.error (Fault.nilDereference history)`.

Conventions of the embedding:

* Reads are not recorded in the history: `pg.RootProcess()`, the liveness
  test `subprocessRunning` and `os.Environ()` inspect and change nothing.
  Every other call the two files make is recorded, the log calls included.
* `subprocessRunning`, the launch helper `start` and `bazelNew` are defined
  elsewhere in the package.  The first two are fields of `Env`; `start` is one
  atomic call that returns an output buffer and a non-nil process group.
* `RootProcess()` is an `*exec.Cmd`, whose `StdinPipe` returns either a pipe
  and a nil error or a nil pipe and an error.
-/

namespace Command

/-- Handle of a process group: a non-nil `process_group.ProcessGroup`. -/
abbrev PG := Nat

/-- Handle of the write end of a stdin pipe: a non-nil `io.WriteCloser`. -/
abbrev Pipe := Nat

/-- Contents of a `*bytes.Buffer`. -/
abbrev Buffer := String

/-- A non-nil Go `error`. -/
abbrev Err := String

/-- Calls made on the collaborators, in the order the source makes them. -/
inductive Event where
  /-- Call `bazelNew()` -/
  | bazelNew
  /-- Call `b.SetStartupArgs(args)` -/
  | setStartupArgs (args : List String)
  /-- Call `b.SetArguments(args)` -/
  | setArguments (args : List String)
  /-- Call `b.WriteToStderr(v)` -/
  | writeToStderr (v : Bool)
  /-- Call `b.WriteToStdout(v)` -/
  | writeToStdout (v : Bool)
  /-- Call `start(b, target, args)` or `start(b, target, args, flag)`: the launch helper. -/
  | start (target : String) (args : List String) (flag : Option Bool)
  /-- Call `pg.RootProcess().StdinPipe()` -/
  | stdinPipe (pg : PG)
  /-- Call `pg.RootProcess().Env = env` -/
  | setEnv (pg : PG) (env : List String)
  /-- Call `pg.Start()` -/
  | pgStart (pg : PG)
  /-- Call `pg.Kill()` -/
  | pgKill (pg : PG)
  /-- Call `pg.Terminate()` -/
  | pgTerminate (pg : PG)
  /-- Call `pg.Wait()` -/
  | pgWait (pg : PG)
  /-- Call `pg.Close()` -/
  | pgClose (pg : PG)
  /-- Call `pg.RefreshSignal()` -/
  | pgRefreshSignal (pg : PG)
  /-- Call `b.Build(target)` -/
  | build (target : String)
  /-- Call `stdin.Write([]byte(bytes))` -/
  | stdinWrite (stdin : Pipe) (bytes : String)
  /-- Call `log.Errorf(format, err)` -/
  | logErrorf (format : String) (err : Err)
  /-- Call `log.Log(msg)` -/
  | logLog (msg : String)
  deriving DecidableEq, Repr

/-- Run-time panics of the Go code, with the history at the moment of the panic. -/
inductive Fault where
  /-- A method was called on a nil interface value. -/
  | nilDereference (history : List Event)
  deriving DecidableEq, Repr

/-- Answers of the collaborators.  None of them is defined in the two source
files; each is a parameter of the embedding.  The first argument is the
history at the moment of the call. -/
structure Env where
  /-- Answer of `os.Environ()` -/
  environ : List Event → List String
  /-- Answer of `subprocessRunning(pg.RootProcess())`, a helper of the package that is
  defined outside the two files: whether the root process of `pg` is alive. -/
  subprocessRunning : List Event → PG → Bool
  /-- Answer of `start(b, target, args[, flag])`, the launch helper of the package that
  is defined outside the two files: the output buffer and the process group
  it has prepared. -/
  start : List Event → String → List String → Option Bool → Buffer × PG
  /-- Answer of `pg.RootProcess().StdinPipe()` of `os/exec`: the pipe, or an error and
  a nil pipe. -/
  stdinPipe : List Event → PG → Except Err Pipe
  /-- Answer of `pg.Start()`: `none` is a nil error. -/
  pgStart : List Event → PG → Option Err
  /-- Answer of `b.Build(target)`: the output buffer and the result, `none` being nil. -/
  build : List Event → String → Buffer × Option Err
  /-- Answer of `stdin.Write(bytes)`: the error returned, `none` being nil. -/
  write : List Event → Pipe → String → Option Err

/-- The five builder calls that open both `Start` and the build branch of
`NotifyOfChanges`: `bazelNew`, `SetStartupArgs`, `SetArguments`,
`WriteToStderr(true)`, `WriteToStdout(true)`. -/
def newBuilder (startupArgs bazelArgs : List String) : List Event :=
  [.bazelNew, .setStartupArgs startupArgs, .setArguments bazelArgs,
   .writeToStderr true, .writeToStdout true]

/-- A method call `pg.op()` on the interface value `pg`; a nil receiver panics. -/
def callPG (pg : Option PG) (op : PG → Event) (tr : List Event) :
    Except Fault (List Event) :=
  match pg with
  | none => .error (.nilDereference tr)
  | some g => .ok (tr ++ [op g])

/-- The guard `pg != nil && !subprocessRunning(pg.RootProcess())` of `Terminate`. -/
def exitedGuard (env : Env) (pg : Option PG) (tr : List Event) : Bool :=
  match pg with
  | none => false
  | some g => !env.subprocessRunning tr g

/-- Statement `if err != nil { log.Errorf(format, err) }` -/
def logIfErr (format : String) : Option Err → List Event
  | some err => [.logErrorf format err]
  | none => []

/-- Statement `_, err := stdin.Write([]byte(bytes))` followed by
`if err != nil { log.Errorf(format, err) }`; a nil `stdin` panics. -/
def writeLine (env : Env) (stdin : Option Pipe) (bytes format : String)
    (tr : List Event) : Except Fault (List Event) :=
  match stdin with
  | none => .error (.nilDereference tr)
  | some p => .ok (tr ++ [.stdinWrite p bytes] ++ logIfErr format (env.write tr p bytes))

/-! ## Stdin variant: `notify_command.go` -/

/-- The record `notifyCommand`. -/
structure notifyCommand where
  target : String
  startupArgs : List String
  bazelArgs : List String
  args : List String
  useKill : Bool
  pg : Option PG
  stdin : Option Pipe
  deriving DecidableEq, Repr

/-- The constructor `NotifyCommand`: `pg` and `stdin` are left nil. -/
def NotifyCommand (startupArgs bazelArgs : List String) (target : String)
    (args : List String) (useKill : Bool) : notifyCommand :=
  { startupArgs := startupArgs, target := target, bazelArgs := bazelArgs,
    args := args, useKill := useKill, pg := none, stdin := none }

/-- Method `func (c *notifyCommand) IsSubprocessRunning() bool` -/
def notifyCommand.IsSubprocessRunning (env : Env) (c : notifyCommand)
    (tr : List Event) : Bool :=
  match c.pg with
  | none => false
  | some g => env.subprocessRunning tr g

/-- Method `func (c *notifyCommand) Terminate()` -/
def notifyCommand.Terminate (env : Env) (c : notifyCommand) (tr : List Event) :
    Except Fault (notifyCommand × List Event) :=
  if exitedGuard env c.pg tr then
    .ok (c, tr)
  else
    match (if c.useKill then callPG c.pg .pgKill tr else callPG c.pg .pgTerminate tr) with
    | .error f => .error f
    | .ok tr1 =>
      match callPG c.pg .pgWait tr1 with
      | .error f => .error f
      | .ok tr2 =>
        match callPG c.pg .pgClose tr2 with
        | .error f => .error f
        | .ok tr3 => .ok ({ c with pg := none }, tr3)

/-- Method `func (c *notifyCommand) Start() (*bytes.Buffer, error)` -/
def notifyCommand.Start (env : Env) (c : notifyCommand) (tr : List Event) :
    (Buffer × Option Err) × notifyCommand × List Event :=
  let tr0 := tr ++ newBuilder c.startupArgs c.bazelArgs
  let r := env.start tr0 c.target c.args (some false)
  let outputBuffer := r.1
  let g := r.2
  let tr1 := tr0 ++ [.start c.target c.args (some false)]
  match env.stdinPipe tr1 g with
  | .error err =>
    ((outputBuffer, some err), { c with pg := some g, stdin := none },
      tr1 ++ [.stdinPipe g, .logErrorf "Error getting stdin pipe: %v" err])
  | .ok p =>
    let tr2 := tr1 ++ [.stdinPipe g]
    let tr3 := tr2 ++ [.setEnv g (env.environ tr2 ++ ["IBAZEL_NOTIFY_CHANGES=y"])]
    match env.pgStart tr3 g with
    | some err =>
      ((outputBuffer, some err), { c with pg := some g, stdin := some p },
        tr3 ++ [.pgStart g, .logErrorf "Error starting process: %v" err])
    | none =>
      ((outputBuffer, none), { c with pg := some g, stdin := some p },
        tr3 ++ [.pgStart g, .logLog "Starting..."])

/-- Method `func (c *notifyCommand) NotifyOfChanges() *bytes.Buffer` -/
def notifyCommand.NotifyOfChanges (env : Env) (c : notifyCommand) (tr : List Event) :
    Except Fault (Buffer × notifyCommand × List Event) :=
  if !c.IsSubprocessRunning env tr then
    let r := c.Start env tr
    .ok (r.1.1, r.2.1, r.2.2)
  else
    let tr0 := tr ++ newBuilder c.startupArgs c.bazelArgs
    match writeLine env c.stdin "IBAZEL_BUILD_STARTED\n" "Error writing build to stdin: %s" tr0 with
    | .error f => .error f
    | .ok tr1 =>
      let r := env.build tr1 c.target
      let outputBuffer := r.1
      let tr2 := tr1 ++ [.build c.target]
      match r.2 with
      | some res =>
        match writeLine env c.stdin "IBAZEL_BUILD_COMPLETED FAILURE\n"
            "Error writing failure to stdin: %s"
            (tr2 ++ [.logErrorf "IBAZEL BUILD FAILURE: %v" res]) with
        | .error f => .error f
        | .ok tr3 => .ok (outputBuffer, c, tr3)
      | none =>
        match writeLine env c.stdin "IBAZEL_BUILD_COMPLETED SUCCESS\n"
            "Error writing success to stdin: %v"
            (tr2 ++ [.logLog "IBAZEL BUILD SUCCESS"]) with
        | .error f => .error f
        | .ok tr3 => .ok (outputBuffer, c, tr3)

/-! ## Signal variant: `signal_command.go` -/

/-- The record `signalCommand`. -/
structure signalCommand where
  target : String
  startupArgs : List String
  bazelArgs : List String
  args : List String
  useKill : Bool
  pg : Option PG
  deriving DecidableEq, Repr

/-- The constructor `SignalCommand`: `pg` is left nil. -/
def SignalCommand (startupArgs bazelArgs : List String) (target : String)
    (args : List String) (useKill : Bool) : signalCommand :=
  { startupArgs := startupArgs, target := target, bazelArgs := bazelArgs,
    args := args, useKill := useKill, pg := none }

/-- Method `func (c *signalCommand) IsSubprocessRunning() bool` -/
def signalCommand.IsSubprocessRunning (env : Env) (c : signalCommand)
    (tr : List Event) : Bool :=
  match c.pg with
  | none => false
  | some g => env.subprocessRunning tr g

/-- Method `func (c *signalCommand) Terminate()` -/
def signalCommand.Terminate (env : Env) (c : signalCommand) (tr : List Event) :
    Except Fault (signalCommand × List Event) :=
  if exitedGuard env c.pg tr then
    .ok (c, tr)
  else
    match (if c.useKill then callPG c.pg .pgKill tr else callPG c.pg .pgTerminate tr) with
    | .error f => .error f
    | .ok tr1 =>
      match callPG c.pg .pgWait tr1 with
      | .error f => .error f
      | .ok tr2 =>
        match callPG c.pg .pgClose tr2 with
        | .error f => .error f
        | .ok tr3 => .ok ({ c with pg := none }, tr3)

/-- Method `func (c *signalCommand) Start() (*bytes.Buffer, error)` -/
def signalCommand.Start (env : Env) (c : signalCommand) (tr : List Event) :
    (Buffer × Option Err) × signalCommand × List Event :=
  let tr0 := tr ++ newBuilder c.startupArgs c.bazelArgs
  let r := env.start tr0 c.target c.args none
  let outputBuffer := r.1
  let g := r.2
  let tr1 := tr0 ++ [.start c.target c.args none]
  let tr2 := tr1 ++ [.setEnv g (env.environ tr1 ++ ["IBAZEL_SIGNAL_CHANGES=y"])]
  match env.pgStart tr2 g with
  | some err =>
    ((outputBuffer, some err), { c with pg := some g },
      tr2 ++ [.pgStart g, .logErrorf "Error starting process: %v" err])
  | none =>
    ((outputBuffer, none), { c with pg := some g },
      tr2 ++ [.pgStart g, .logLog "Starting..."])

/-- Method `func (c *signalCommand) NotifyOfChanges() *bytes.Buffer` -/
def signalCommand.NotifyOfChanges (env : Env) (c : signalCommand) (tr : List Event) :
    Except Fault (Buffer × signalCommand × List Event) :=
  if !c.IsSubprocessRunning env tr then
    let r := c.Start env tr
    .ok (r.1.1, r.2.1, r.2.2)
  else
    let tr0 := tr ++ newBuilder c.startupArgs c.bazelArgs
    let r := env.build tr0 c.target
    let outputBuffer := r.1
    match callPG c.pg .pgRefreshSignal (tr0 ++ [.build c.target]) with
    | .error f => .error f
    | .ok tr1 => .ok (outputBuffer, c, tr1)

/-! ## Observations on histories -/

/-- Whether the event is a `Builder.Build` call. -/
def Event.isBuild : Event → Bool
  | .build _ => true
  | _ => false

/-- Whether the event delivers a notification to the subprocess: a write to
its stdin or a refresh signal. -/
def Event.isNotification : Event → Bool
  | .stdinWrite _ _ => true
  | .pgRefreshSignal _ => true
  | _ => false

/-- The builds and notifications of a history, in order. -/
def observed (evs : List Event) : List Event :=
  evs.filter (fun e => e.isBuild || e.isNotification)

/-- The environments assigned to root processes in a history (the `Env`
assignments), in order. -/
def assignedEnvs (evs : List Event) : List (List String) :=
  evs.filterMap (fun e => match e with
    | .setEnv _ env => some env
    | _ => none)

/-- Whether an environment list has an entry for the variable `name`, that
is, a string that starts with `name=`. -/
def hasEntry (name : String) (env : List String) : Bool :=
  env.any (fun s => (name ++ "=").toList.isPrefixOf s.toList)

/-- Whether the stdin handle is present exactly when the process group is. -/
def notifyCommand.handlesAgree (c : notifyCommand) : Bool :=
  c.stdin.isSome == c.pg.isSome

/-- The operations of the supervisor contract. -/
inductive Op where
  | Start
  | NotifyOfChanges
  | Terminate
  | IsSubprocessRunning
  deriving DecidableEq, Repr

/-- One operation of the stdin variant, applied by a caller to a supervisor
and a history; return values are dropped. -/
def notifyCommand.step (env : Env) (op : Op) (s : notifyCommand × List Event) :
    Except Fault (notifyCommand × List Event) :=
  match op with
  | .Start => .ok ((s.1.Start env s.2).2.1, (s.1.Start env s.2).2.2)
  | .NotifyOfChanges =>
    match s.1.NotifyOfChanges env s.2 with
    | .ok r => .ok (r.2.1, r.2.2)
    | .error f => .error f
  | .Terminate => s.1.Terminate env s.2
  | .IsSubprocessRunning => .ok s

/-- A sequence of operations of the stdin variant, applied in order; a panic
stops the sequence. -/
def notifyCommand.run (env : Env) :
    List Op → notifyCommand × List Event → Except Fault (notifyCommand × List Event)
  | [], s => .ok s
  | op :: ops, s =>
    match notifyCommand.step env op s with
    | .ok s2 => notifyCommand.run env ops s2
    | .error f => .error f

/-- Assumptions on the two helpers of the package that are defined outside
the two files, under which a running subprocess always has its stdin pipe
held: a root process is reported alive only if `pg.Start()` has been called
on its process group, and the launch helper returns a process group on which
`pg.Start()` has not been called yet. -/
structure Env.Spawning (env : Env) : Prop where
  running_started : ∀ h g, env.subprocessRunning h g = true → Event.pgStart g ∈ h
  start_fresh : ∀ h t a f, Event.pgStart (env.start h t a f).2 ∉ h

/-- A stdin-variant supervisor without stdin handle owns, if any, a process
group on which `pg.Start()` has not been called. -/
def notifyCommand.pipeBeforeSpawn (c : notifyCommand) (tr : List Event) : Prop :=
  ∀ g, c.pg = some g → c.stdin = none → Event.pgStart g ∉ tr

/-! ## Sample collaborators -/

/-- Collaborators that always succeed, with every root process alive. -/
def liveEnv : Env :=
  { environ := fun _ => ["PATH=/bin"]
    subprocessRunning := fun _ _ => true
    start := fun _ _ _ _ => ("launched", 7)
    stdinPipe := fun _ _ => .ok 3
    pgStart := fun _ _ => none
    build := fun _ _ => ("built", none)
    write := fun _ _ _ => none }

/-- Collaborators that always succeed, with every root process exited. -/
def exitedEnv : Env :=
  { liveEnv with subprocessRunning := fun _ _ => false }

/-- Collaborators whose build fails and whose stdin writes all fail, with
every root process alive. -/
def brokenPipeEnv : Env :=
  { liveEnv with
    build := fun _ _ => ("failed", some "exit status 1")
    write := fun _ _ _ => some "broken pipe" }

/-- Collaborators that always succeed, started from inside a signal-variant
subprocess: the inherited environment carries `IBAZEL_SIGNAL_CHANGES=y`. -/
def nestedInSignalEnv : Env :=
  { liveEnv with environ := fun _ => ["PATH=/bin", "IBAZEL_SIGNAL_CHANGES=y"] }

/-- Collaborators that always succeed, started from inside a stdin-variant
subprocess: the inherited environment carries `IBAZEL_NOTIFY_CHANGES=y`. -/
def nestedInNotifyEnv : Env :=
  { liveEnv with environ := fun _ => ["PATH=/bin", "IBAZEL_NOTIFY_CHANGES=y"] }

/-- Collaborators for which the stdin pipe of the root process cannot be
obtained. -/
def noPipeEnv : Env :=
  { liveEnv with stdinPipe := fun _ _ => .error "exec: Stdin already set" }

/-- Collaborators for which spawning the process group fails. -/
def noSpawnEnv : Env :=
  { liveEnv with pgStart := fun _ _ => some "fork/exec: no such file or directory" }

/-- A process-group handle above every handle `pg.Start()` was called on. -/
def freshPG : List Event → PG
  | [] => 0
  | .pgStart g :: es => max (g + 1) (freshPG es)
  | _ :: es => freshPG es

/-- Collaborators that always succeed, whose launch helper returns a new
process group each time, and for which a root process is alive once
`pg.Start()` has been called on its group. -/
def spawningEnv : Env :=
  { liveEnv with
    subprocessRunning := fun h g => decide (Event.pgStart g ∈ h)
    start := fun h _ _ _ => ("launched", freshPG h) }

/-- A stdin-variant supervisor that owns process group 7 and pipe 3. -/
def ownedNotify (useKill : Bool) : notifyCommand :=
  { NotifyCommand [] [] "//:app" [] useKill with pg := some 7, stdin := some 3 }

/-- A signal-variant supervisor that owns process group 7. -/
def ownedSignal (useKill : Bool) : signalCommand :=
  { SignalCommand [] [] "//:app" [] useKill with pg := some 7 }

/-! ## Terminate -/

/-- C1, as the code behaves: in both variants and under both termination
policies, `Terminate` on a supervisor whose process group is absent (freshly
constructed, or just terminated) does not complete: the guard
`c.pg != nil && ...` is false, and the following `c.pg.Kill()` or
`c.pg.Terminate()` is a call on a nil interface, which panics before any
process-group operation is recorded. -/
theorem Terminate_absent_pg_panics (env : Env) (cn : notifyCommand)
    (cs : signalCommand) (tr : List Event) :
    ({ cn with pg := none } : notifyCommand).Terminate env tr
        = .error (.nilDereference tr)
    ∧ ({ cs with pg := none } : signalCommand).Terminate env tr
        = .error (.nilDereference tr)
    ∧ ∀ sa ba t a k,
        (NotifyCommand sa ba t a k).Terminate env tr = .error (.nilDereference tr)
        ∧ (SignalCommand sa ba t a k).Terminate env tr = .error (.nilDereference tr) := by
  refine ⟨?_, ?_, ?_⟩
  · cases h : cn.useKill <;>
      simp [notifyCommand.Terminate, exitedGuard, callPG, h]
  · cases h : cs.useKill <;>
      simp [signalCommand.Terminate, exitedGuard, callPG, h]
  · intro sa ba t a k
    cases k <;>
      simp [notifyCommand.Terminate, signalCommand.Terminate, NotifyCommand,
        SignalCommand, exitedGuard, callPG]

/-- C2: in both variants, when a process group is owned and its root process
is alive, `Terminate` calls on that group exactly Kill, Wait, Close (Forced,
`useKill = true`) or exactly Terminate, Wait, Close (Graceful), in that order
and nothing else; afterwards the process-group handle is absent and
`IsSubprocessRunning` is false. -/
theorem Terminate_live_sequence (env : Env) (cn : notifyCommand)
    (cs : signalCommand) (g : PG) (tr : List Event)
    (hn : cn.pg = some g) (hs : cs.pg = some g)
    (hlive : env.subprocessRunning tr g = true) :
    (cn.Terminate env tr
        = .ok ({ cn with pg := none },
            tr ++ [if cn.useKill then Event.pgKill g else Event.pgTerminate g,
                   Event.pgWait g, Event.pgClose g])
      ∧ ∀ tr2, ({ cn with pg := none } : notifyCommand).IsSubprocessRunning env tr2 = false)
    ∧ (cs.Terminate env tr
        = .ok ({ cs with pg := none },
            tr ++ [if cs.useKill then Event.pgKill g else Event.pgTerminate g,
                   Event.pgWait g, Event.pgClose g])
      ∧ ∀ tr2, ({ cs with pg := none } : signalCommand).IsSubprocessRunning env tr2 = false) := by
  refine ⟨⟨?_, ?_⟩, ?_, ?_⟩
  · cases h : cn.useKill <;>
      simp [notifyCommand.Terminate, exitedGuard, callPG, hn, hlive, h]
  · intro tr2; simp [notifyCommand.IsSubprocessRunning]
  · cases h : cs.useKill <;>
      simp [signalCommand.Terminate, exitedGuard, callPG, hs, hlive, h]
  · intro tr2; simp [signalCommand.IsSubprocessRunning]

/-- Witness of C2: Forced termination of the live group 7 in both variants. -/
theorem Terminate_live_sequence_witness :
    (ownedNotify true).Terminate liveEnv []
        = .ok ({ ownedNotify true with pg := none },
            [Event.pgKill 7, Event.pgWait 7, Event.pgClose 7])
    ∧ (ownedSignal true).Terminate liveEnv []
        = .ok ({ ownedSignal true with pg := none },
            [Event.pgKill 7, Event.pgWait 7, Event.pgClose 7]) :=
  have h := Terminate_live_sequence liveEnv (ownedNotify true) (ownedSignal true) 7 []
    rfl rfl rfl
  ⟨h.1.1, h.2.1⟩

/-- C3: in both variants and under both termination policies, when a process
group is owned but its root process has already exited, `Terminate` returns
at the guard: no call is made on the process group (the history is
unchanged) and the supervisor record is unchanged. -/
theorem Terminate_exited_noop (env : Env) (cn : notifyCommand)
    (cs : signalCommand) (g : PG) (tr : List Event)
    (hn : cn.pg = some g) (hs : cs.pg = some g)
    (hexited : env.subprocessRunning tr g = false) :
    cn.Terminate env tr = .ok (cn, tr) ∧ cs.Terminate env tr = .ok (cs, tr) := by
  constructor
  · simp [notifyCommand.Terminate, exitedGuard, hn, hexited]
  · simp [signalCommand.Terminate, exitedGuard, hs, hexited]

/-- Witness of C3: group 7 with an exited root, under both policies. -/
theorem Terminate_exited_noop_witness :
    ((ownedNotify true).Terminate exitedEnv [] = .ok (ownedNotify true, [])
      ∧ (ownedSignal true).Terminate exitedEnv [] = .ok (ownedSignal true, []))
    ∧ ((ownedNotify false).Terminate exitedEnv [] = .ok (ownedNotify false, [])
      ∧ (ownedSignal false).Terminate exitedEnv [] = .ok (ownedSignal false, [])) :=
  ⟨Terminate_exited_noop exitedEnv (ownedNotify true) (ownedSignal true) 7 [] rfl rfl rfl,
   Terminate_exited_noop exitedEnv (ownedNotify false) (ownedSignal false) 7 [] rfl rfl rfl⟩

/-! ## NotifyOfChanges -/

/-- The calls `notifyCommand.Start` adds to the history contain no build and
no notification. -/
theorem notify_Start_quiet (env : Env) (c : notifyCommand) (tr : List Event) :
    ∃ evs, (c.Start env tr).2.2 = tr ++ evs
      ∧ ∀ e ∈ evs, e.isBuild = false ∧ e.isNotification = false := by
  unfold notifyCommand.Start
  simp only []
  split
  · exact ⟨_, by simp only [List.append_assoc]; rfl,
      by simp [newBuilder, Event.isBuild, Event.isNotification]⟩
  · split
    · exact ⟨_, by simp only [List.append_assoc]; rfl,
        by simp [newBuilder, Event.isBuild, Event.isNotification]⟩
    · exact ⟨_, by simp only [List.append_assoc]; rfl,
        by simp [newBuilder, Event.isBuild, Event.isNotification]⟩

/-- The calls `signalCommand.Start` adds to the history contain no build and
no notification. -/
theorem signal_Start_quiet (env : Env) (c : signalCommand) (tr : List Event) :
    ∃ evs, (c.Start env tr).2.2 = tr ++ evs
      ∧ ∀ e ∈ evs, e.isBuild = false ∧ e.isNotification = false := by
  unfold signalCommand.Start
  simp only []
  split
  · exact ⟨_, by simp only [List.append_assoc]; rfl,
      by simp [newBuilder, Event.isBuild, Event.isNotification]⟩
  · exact ⟨_, by simp only [List.append_assoc]; rfl,
      by simp [newBuilder, Event.isBuild, Event.isNotification]⟩

/-- C4: in both variants, whenever `IsSubprocessRunning` is false,
`NotifyOfChanges` ends in the supervisor record and the history in which
`Start` ends, returns the output buffer `Start` returns, and the calls it adds
contain no `Builder.Build` call, no stdin write and no `RefreshSignal`. -/
theorem NotifyOfChanges_not_running_is_Start (env : Env) (cn : notifyCommand)
    (cs : signalCommand) (tr : List Event)
    (hn : cn.IsSubprocessRunning env tr = false)
    (hs : cs.IsSubprocessRunning env tr = false) :
    (cn.NotifyOfChanges env tr
        = .ok ((cn.Start env tr).1.1, (cn.Start env tr).2.1, (cn.Start env tr).2.2)
      ∧ ∃ evs, (cn.Start env tr).2.2 = tr ++ evs
          ∧ ∀ e ∈ evs, e.isBuild = false ∧ e.isNotification = false)
    ∧ (cs.NotifyOfChanges env tr
        = .ok ((cs.Start env tr).1.1, (cs.Start env tr).2.1, (cs.Start env tr).2.2)
      ∧ ∃ evs, (cs.Start env tr).2.2 = tr ++ evs
          ∧ ∀ e ∈ evs, e.isBuild = false ∧ e.isNotification = false) := by
  refine ⟨⟨?_, notify_Start_quiet env cn tr⟩, ?_, signal_Start_quiet env cs tr⟩
  · simp [notifyCommand.NotifyOfChanges, hn]
  · simp [signalCommand.NotifyOfChanges, hs]

/-- Witness of C4: a fresh supervisor (no process group) and one whose root
process has exited both take the `Start` path. -/
theorem NotifyOfChanges_not_running_is_Start_witness :
    (NotifyCommand [] [] "//:app" [] false).NotifyOfChanges liveEnv []
        = .ok ("launched", ownedNotify false,
            newBuilder [] [] ++ [Event.start "//:app" [] (some false), Event.stdinPipe 7,
              Event.setEnv 7 ["PATH=/bin", "IBAZEL_NOTIFY_CHANGES=y"], Event.pgStart 7,
              Event.logLog "Starting..."])
    ∧ (ownedSignal false).NotifyOfChanges exitedEnv []
        = .ok ("launched", ownedSignal false,
            newBuilder [] [] ++ [Event.start "//:app" [] none,
              Event.setEnv 7 ["PATH=/bin", "IBAZEL_SIGNAL_CHANGES=y"], Event.pgStart 7,
              Event.logLog "Starting..."]) :=
  ⟨(NotifyOfChanges_not_running_is_Start liveEnv (NotifyCommand [] [] "//:app" [] false)
      (SignalCommand [] [] "//:app" [] false) [] rfl rfl).1.1,
   (NotifyOfChanges_not_running_is_Start exitedEnv (ownedNotify false)
      (ownedSignal false) [] rfl rfl).2.1⟩

/-- Log entries are neither builds nor notifications. -/
theorem observed_logIfErr (format : String) (r : Option Err) :
    observed (logIfErr format r) = [] := by
  cases r <;> simp [observed, logIfErr, Event.isBuild, Event.isNotification]

/-- The builder preparation contains neither builds nor notifications. -/
theorem observed_newBuilder (sa ba : List String) : observed (newBuilder sa ba) = [] := by
  simp [observed, newBuilder, Event.isBuild, Event.isNotification]

/-- The observed part of a history distributes over concatenation. -/
theorem observed_append (xs ys : List Event) :
    observed (xs ++ ys) = observed xs ++ observed ys := by
  simp [observed]

/-- The observed part of two events followed by an optional log entry. -/
theorem observed_cons_cons_logIfErr (a b : Event) (format : String) (r : Option Err) :
    observed (a :: b :: logIfErr format r) = observed [a, b] := by
  have h : a :: b :: logIfErr format r = [a, b] ++ logIfErr format r := rfl
  rw [h, observed_append, observed_logIfErr, List.append_nil]

/-- C5: in the stdin variant, a `NotifyOfChanges` call made while the
subprocess is running (stdin pipe `p` held) makes, for every builder outcome,
exactly one `Build(target)` call; the writes to the subprocess's stdin are
exactly two: `IBAZEL_BUILD_STARTED\n` before the build and, after it,
`IBAZEL_BUILD_COMPLETED FAILURE\n` if `Build` returned a non-nil error and
`IBAZEL_BUILD_COMPLETED SUCCESS\n` otherwise; the buffer `Build` returned is
returned.  `pre` and `post` are the calls made before and after the build, so
`tr ++ pre` is the history at the moment `Build` is called. -/
theorem notify_running_protocol (env : Env)
    (c : notifyCommand) (p : Pipe) (tr : List Event)
    (hrun : c.IsSubprocessRunning env tr = true) (hp : c.stdin = some p) :
    ∃ pre post,
      c.NotifyOfChanges env tr
        = .ok ((env.build (tr ++ pre) c.target).1, c,
            tr ++ pre ++ [Event.build c.target] ++ post)
      ∧ observed pre = [Event.stdinWrite p "IBAZEL_BUILD_STARTED\n"]
      ∧ observed post
          = [Event.stdinWrite p
              (if (env.build (tr ++ pre) c.target).2.isSome
               then "IBAZEL_BUILD_COMPLETED FAILURE\n"
               else "IBAZEL_BUILD_COMPLETED SUCCESS\n")] := by
  refine ⟨newBuilder c.startupArgs c.bazelArgs
      ++ [Event.stdinWrite p "IBAZEL_BUILD_STARTED\n"]
      ++ logIfErr "Error writing build to stdin: %s"
          (env.write (tr ++ newBuilder c.startupArgs c.bazelArgs) p "IBAZEL_BUILD_STARTED\n"),
    ?_⟩
  unfold notifyCommand.NotifyOfChanges
  simp only [hrun, hp, writeLine, Bool.not_true, Bool.false_eq_true, if_false,
    ← List.append_assoc]
  split
  · next res hb =>
    generalize env.write _ p "IBAZEL_BUILD_COMPLETED FAILURE\n" = w2
    refine ⟨Event.logErrorf "IBAZEL BUILD FAILURE: %v" res
        :: Event.stdinWrite p "IBAZEL_BUILD_COMPLETED FAILURE\n"
        :: logIfErr "Error writing failure to stdin: %s" w2, ?_, ?_, ?_⟩
    · simp
    · rw [observed_append, observed_append, observed_logIfErr, observed_newBuilder]
      rfl
    · rw [hb, observed_cons_cons_logIfErr]
      rfl
  · next hb =>
    generalize env.write _ p "IBAZEL_BUILD_COMPLETED SUCCESS\n" = w2
    refine ⟨Event.logLog "IBAZEL BUILD SUCCESS"
        :: Event.stdinWrite p "IBAZEL_BUILD_COMPLETED SUCCESS\n"
        :: logIfErr "Error writing success to stdin: %v" w2, ?_, ?_, ?_⟩
    · simp
    · rw [observed_append, observed_append, observed_logIfErr, observed_newBuilder]
      rfl
    · rw [hb, observed_cons_cons_logIfErr]
      rfl

/-- Witness of C5: group 7 alive, the build fails (and so do the writes):
the stdin of the subprocess is sent STARTED, then COMPLETED FAILURE. -/
theorem notify_running_protocol_witness :
    ∃ pre post,
      (ownedNotify true).NotifyOfChanges brokenPipeEnv []
        = .ok ("failed", ownedNotify true, [] ++ pre ++ [Event.build "//:app"] ++ post)
      ∧ observed pre = [Event.stdinWrite 3 "IBAZEL_BUILD_STARTED\n"]
      ∧ observed post = [Event.stdinWrite 3 "IBAZEL_BUILD_COMPLETED FAILURE\n"] :=
  notify_running_protocol brokenPipeEnv (ownedNotify true) 3 []
    rfl rfl

/-- C6: in the signal variant, a `NotifyOfChanges` call made while the
subprocess is running makes exactly one `Build(target)` call followed by
exactly one `RefreshSignal` call on the owned process group, whatever `Build`
reported; apart from the builder preparation nothing else is called, the
supervisor record is unchanged and the buffer `Build` returned is returned. -/
theorem signal_running_refresh (env : Env)
    (c : signalCommand) (tr : List Event)
    (hrun : c.IsSubprocessRunning env tr = true) :
    ∃ g, c.pg = some g
      ∧ c.NotifyOfChanges env tr
        = .ok ((env.build (tr ++ newBuilder c.startupArgs c.bazelArgs) c.target).1, c,
            tr ++ newBuilder c.startupArgs c.bazelArgs
              ++ [Event.build c.target, Event.pgRefreshSignal g])
      ∧ observed (newBuilder c.startupArgs c.bazelArgs
              ++ [Event.build c.target, Event.pgRefreshSignal g])
          = [Event.build c.target, Event.pgRefreshSignal g] := by
  cases hg : c.pg with
  | none => simp [signalCommand.IsSubprocessRunning, hg] at hrun
  | some g =>
    refine ⟨g, rfl, ?_, ?_⟩
    · simp [signalCommand.NotifyOfChanges, hrun, hg, callPG]
    · rw [observed_append, observed_newBuilder]
      rfl

/-- Witness of C6: group 7 alive and a failing build. -/
theorem signal_running_refresh_witness :
    ∃ g, (ownedSignal false).pg = some g
      ∧ (ownedSignal false).NotifyOfChanges brokenPipeEnv []
        = .ok ("failed", ownedSignal false,
            [] ++ newBuilder [] [] ++ [Event.build "//:app", Event.pgRefreshSignal g])
      ∧ observed (newBuilder [] [] ++ [Event.build "//:app", Event.pgRefreshSignal g])
          = [Event.build "//:app", Event.pgRefreshSignal g] :=
  signal_running_refresh brokenPipeEnv (ownedSignal false) [] rfl

/-- C8: in the stdin variant, a `NotifyOfChanges` call made while the
subprocess is running (stdin pipe `p` held) runs to its end whatever the two
stdin writes return: the STARTED write is followed by `Build(target)`, called
exactly once, then by the COMPLETED write; a failing write only adds a log
entry (`logIfErr`); the call returns the buffer `Build` returned, no error is
returned and the supervisor record is unchanged. -/
theorem notify_write_failures_absorbed (env : Env)
    (c : notifyCommand) (p : Pipe) (tr : List Event)
    (hrun : c.IsSubprocessRunning env tr = true) (hp : c.stdin = some p) :
    ∃ logev line format,
      c.NotifyOfChanges env tr
        = .ok ((env.build
                (tr ++ newBuilder c.startupArgs c.bazelArgs
                  ++ [Event.stdinWrite p "IBAZEL_BUILD_STARTED\n"]
                  ++ logIfErr "Error writing build to stdin: %s"
                      (env.write (tr ++ newBuilder c.startupArgs c.bazelArgs) p
                        "IBAZEL_BUILD_STARTED\n")) c.target).1,
            c,
            tr ++ newBuilder c.startupArgs c.bazelArgs
              ++ [Event.stdinWrite p "IBAZEL_BUILD_STARTED\n"]
              ++ logIfErr "Error writing build to stdin: %s"
                  (env.write (tr ++ newBuilder c.startupArgs c.bazelArgs) p
                    "IBAZEL_BUILD_STARTED\n")
              ++ [Event.build c.target, logev]
              ++ [Event.stdinWrite p line]
              ++ logIfErr format
                  (env.write
                    (tr ++ newBuilder c.startupArgs c.bazelArgs
                      ++ [Event.stdinWrite p "IBAZEL_BUILD_STARTED\n"]
                      ++ logIfErr "Error writing build to stdin: %s"
                          (env.write (tr ++ newBuilder c.startupArgs c.bazelArgs) p
                            "IBAZEL_BUILD_STARTED\n")
                      ++ [Event.build c.target, logev]) p line))
      ∧ logev.isBuild = false ∧ logev.isNotification = false
      ∧ (line = "IBAZEL_BUILD_COMPLETED FAILURE\n"
          ∨ line = "IBAZEL_BUILD_COMPLETED SUCCESS\n") := by
  unfold notifyCommand.NotifyOfChanges
  simp only [hrun, hp, writeLine, Bool.not_true, Bool.false_eq_true, if_false]
  split
  · next res hb =>
    exact ⟨Event.logErrorf "IBAZEL BUILD FAILURE: %v" res,
      "IBAZEL_BUILD_COMPLETED FAILURE\n", "Error writing failure to stdin: %s",
      by simp only [List.append_assoc, List.cons_append, List.nil_append],
      rfl, rfl, Or.inl rfl⟩
  · next hb =>
    exact ⟨Event.logLog "IBAZEL BUILD SUCCESS",
      "IBAZEL_BUILD_COMPLETED SUCCESS\n", "Error writing success to stdin: %v",
      by simp only [List.append_assoc, List.cons_append, List.nil_append],
      rfl, rfl, Or.inr rfl⟩

/-- Witness of C8: group 7 alive, both stdin writes fail with "broken pipe":
the build is still run, both lines are still attempted, both failures are
logged and the build's buffer is returned. -/
theorem notify_write_failures_absorbed_witness :
    ∃ logev line format,
      (ownedNotify false).NotifyOfChanges brokenPipeEnv []
        = .ok ("failed", ownedNotify false,
            [] ++ newBuilder [] []
              ++ [Event.stdinWrite 3 "IBAZEL_BUILD_STARTED\n"]
              ++ [Event.logErrorf "Error writing build to stdin: %s" "broken pipe"]
              ++ [Event.build "//:app", logev]
              ++ [Event.stdinWrite 3 line]
              ++ [Event.logErrorf format "broken pipe"])
      ∧ logev.isBuild = false ∧ logev.isNotification = false
      ∧ (line = "IBAZEL_BUILD_COMPLETED FAILURE\n"
          ∨ line = "IBAZEL_BUILD_COMPLETED SUCCESS\n") :=
  notify_write_failures_absorbed brokenPipeEnv
    (ownedNotify false) 3 [] rfl rfl

/-! ## Start -/

/-- The stdin variant's `Start` when `StdinPipe` fails with `e`. -/
theorem notify_Start_pipe_error (env : Env) (c : notifyCommand)
    (tr : List Event) (e : Err)
    (h : env.stdinPipe
        (tr ++ newBuilder c.startupArgs c.bazelArgs
          ++ [Event.start c.target c.args (some false)])
        (env.start (tr ++ newBuilder c.startupArgs c.bazelArgs)
          c.target c.args (some false)).2 = .error e) :
    c.Start env tr
      = (((env.start (tr ++ newBuilder c.startupArgs c.bazelArgs)
            c.target c.args (some false)).1, some e),
          { c with
            pg := some (env.start (tr ++ newBuilder c.startupArgs c.bazelArgs)
              c.target c.args (some false)).2
            stdin := none },
          tr ++ newBuilder c.startupArgs c.bazelArgs
            ++ [Event.start c.target c.args (some false)]
            ++ [Event.stdinPipe (env.start (tr ++ newBuilder c.startupArgs c.bazelArgs)
                  c.target c.args (some false)).2,
                Event.logErrorf "Error getting stdin pipe: %v" e]) := by
  unfold notifyCommand.Start
  simp only [h]

/-- The stdin variant's `Start` when `StdinPipe` returns the pipe `p`. -/
theorem notify_Start_pipe_ok (env : Env) (c : notifyCommand)
    (tr : List Event) (p : Pipe)
    (h : env.stdinPipe
        (tr ++ newBuilder c.startupArgs c.bazelArgs
          ++ [Event.start c.target c.args (some false)])
        (env.start (tr ++ newBuilder c.startupArgs c.bazelArgs)
          c.target c.args (some false)).2 = .ok p) :
    ∃ logev,
    c.Start env tr
      = (((env.start (tr ++ newBuilder c.startupArgs c.bazelArgs)
            c.target c.args (some false)).1,
          env.pgStart
            (tr ++ newBuilder c.startupArgs c.bazelArgs
              ++ [Event.start c.target c.args (some false)]
              ++ [Event.stdinPipe (env.start (tr ++ newBuilder c.startupArgs c.bazelArgs)
                    c.target c.args (some false)).2]
              ++ [Event.setEnv (env.start (tr ++ newBuilder c.startupArgs c.bazelArgs)
                    c.target c.args (some false)).2
                  (env.environ
                    (tr ++ newBuilder c.startupArgs c.bazelArgs
                      ++ [Event.start c.target c.args (some false)]
                      ++ [Event.stdinPipe
                            (env.start (tr ++ newBuilder c.startupArgs c.bazelArgs)
                              c.target c.args (some false)).2])
                    ++ ["IBAZEL_NOTIFY_CHANGES=y"])])
            (env.start (tr ++ newBuilder c.startupArgs c.bazelArgs)
              c.target c.args (some false)).2),
          { c with
            pg := some (env.start (tr ++ newBuilder c.startupArgs c.bazelArgs)
              c.target c.args (some false)).2
            stdin := some p },
          tr ++ newBuilder c.startupArgs c.bazelArgs
            ++ [Event.start c.target c.args (some false)]
            ++ [Event.stdinPipe (env.start (tr ++ newBuilder c.startupArgs c.bazelArgs)
                  c.target c.args (some false)).2]
            ++ [Event.setEnv (env.start (tr ++ newBuilder c.startupArgs c.bazelArgs)
                  c.target c.args (some false)).2
                (env.environ
                  (tr ++ newBuilder c.startupArgs c.bazelArgs
                    ++ [Event.start c.target c.args (some false)]
                    ++ [Event.stdinPipe
                          (env.start (tr ++ newBuilder c.startupArgs c.bazelArgs)
                            c.target c.args (some false)).2])
                  ++ ["IBAZEL_NOTIFY_CHANGES=y"])]
            ++ [Event.pgStart (env.start (tr ++ newBuilder c.startupArgs c.bazelArgs)
                  c.target c.args (some false)).2, logev]) := by
  unfold notifyCommand.Start
  simp only [h]
  split
  · next err hs => exact ⟨_, by rw [hs]⟩
  · next hs => exact ⟨_, by rw [hs]⟩

/-- The signal variant's `Start`. -/
theorem signal_Start_eq (env : Env) (c : signalCommand) (tr : List Event) :
    ∃ logev,
    c.Start env tr
      = (((env.start (tr ++ newBuilder c.startupArgs c.bazelArgs)
            c.target c.args none).1,
          env.pgStart
            (tr ++ newBuilder c.startupArgs c.bazelArgs
              ++ [Event.start c.target c.args none]
              ++ [Event.setEnv (env.start (tr ++ newBuilder c.startupArgs c.bazelArgs)
                    c.target c.args none).2
                  (env.environ
                    (tr ++ newBuilder c.startupArgs c.bazelArgs
                      ++ [Event.start c.target c.args none])
                    ++ ["IBAZEL_SIGNAL_CHANGES=y"])])
            (env.start (tr ++ newBuilder c.startupArgs c.bazelArgs)
              c.target c.args none).2),
          { c with
            pg := some (env.start (tr ++ newBuilder c.startupArgs c.bazelArgs)
              c.target c.args none).2 },
          tr ++ newBuilder c.startupArgs c.bazelArgs
            ++ [Event.start c.target c.args none]
            ++ [Event.setEnv (env.start (tr ++ newBuilder c.startupArgs c.bazelArgs)
                  c.target c.args none).2
                (env.environ
                  (tr ++ newBuilder c.startupArgs c.bazelArgs
                    ++ [Event.start c.target c.args none])
                  ++ ["IBAZEL_SIGNAL_CHANGES=y"])]
            ++ [Event.pgStart (env.start (tr ++ newBuilder c.startupArgs c.bazelArgs)
                  c.target c.args none).2, logev]) := by
  unfold signalCommand.Start
  simp only []
  split
  · next err hs => exact ⟨_, by rw [hs]⟩
  · next hs => exact ⟨_, by rw [hs]⟩

/-- C9: `Start` returns a non-nil error if and only if `ProcessGroup.Start`
returns an error or, in the stdin variant, `StdinPipe` fails; the error
returned is the collaborator's; in every case the buffer returned is the one
the launch helper produced; in the stdin variant a `StdinPipe` failure
returns before `ProcessGroup.Start` is called (the history ends with the
`StdinPipe` call and its log entry), and otherwise `ProcessGroup.Start` is
called.  `hPipe`, `hStartN`, `hStartS` are the histories at the moment
`StdinPipe` and `ProcessGroup.Start` are called. -/
theorem Start_error_iff (env : Env) (cn : notifyCommand) (cs : signalCommand)
    (tr : List Event) :
    let rN := env.start (tr ++ newBuilder cn.startupArgs cn.bazelArgs)
      cn.target cn.args (some false)
    let hPipe := tr ++ newBuilder cn.startupArgs cn.bazelArgs
      ++ [Event.start cn.target cn.args (some false)]
    let hStartN := hPipe ++ [Event.stdinPipe rN.2]
      ++ [Event.setEnv rN.2 (env.environ (hPipe ++ [Event.stdinPipe rN.2])
        ++ ["IBAZEL_NOTIFY_CHANGES=y"])]
    let rS := env.start (tr ++ newBuilder cs.startupArgs cs.bazelArgs)
      cs.target cs.args none
    let hEnvS := tr ++ newBuilder cs.startupArgs cs.bazelArgs
      ++ [Event.start cs.target cs.args none]
    let hStartS := hEnvS ++ [Event.setEnv rS.2 (env.environ hEnvS
      ++ ["IBAZEL_SIGNAL_CHANGES=y"])]
    ((cn.Start env tr).1.1 = rN.1 ∧ (cs.Start env tr).1.1 = rS.1)
    ∧ ((cn.Start env tr).1.2 ≠ none
        ↔ (∃ e, env.stdinPipe hPipe rN.2 = .error e)
          ∨ ((∃ p, env.stdinPipe hPipe rN.2 = .ok p) ∧ env.pgStart hStartN rN.2 ≠ none))
    ∧ ((cs.Start env tr).1.2 ≠ none ↔ env.pgStart hStartS rS.2 ≠ none)
    ∧ (∀ e, env.stdinPipe hPipe rN.2 = .error e →
        (cn.Start env tr).1.2 = some e
        ∧ (cn.Start env tr).2.2
            = hPipe ++ [Event.stdinPipe rN.2,
                Event.logErrorf "Error getting stdin pipe: %v" e])
    ∧ (∀ p, env.stdinPipe hPipe rN.2 = .ok p →
        (cn.Start env tr).1.2 = env.pgStart hStartN rN.2
        ∧ ∃ logev, (cn.Start env tr).2.2 = hStartN ++ [Event.pgStart rN.2, logev])
    ∧ ((cs.Start env tr).1.2 = env.pgStart hStartS rS.2
        ∧ ∃ logev, (cs.Start env tr).2.2 = hStartS ++ [Event.pgStart rS.2, logev]) := by
  intro rN hPipe hStartN rS hEnvS hStartS
  obtain ⟨logS, hS⟩ := signal_Start_eq env cs tr
  have hNerr : ∀ e, env.stdinPipe hPipe rN.2 = .error e →
      (cn.Start env tr).1.2 = some e
      ∧ (cn.Start env tr).2.2
          = hPipe ++ [Event.stdinPipe rN.2,
              Event.logErrorf "Error getting stdin pipe: %v" e] := by
    intro e he
    rw [notify_Start_pipe_error env cn tr e he]
    exact ⟨rfl, rfl⟩
  have hNok : ∀ p, env.stdinPipe hPipe rN.2 = .ok p →
      (cn.Start env tr).1.2 = env.pgStart hStartN rN.2
      ∧ ∃ logev, (cn.Start env tr).2.2 = hStartN ++ [Event.pgStart rN.2, logev] := by
    intro p hp
    obtain ⟨logN, hN⟩ := notify_Start_pipe_ok env cn tr p hp
    rw [hN]
    exact ⟨rfl, logN, rfl⟩
  have hSok : (cs.Start env tr).1.2 = env.pgStart hStartS rS.2
      ∧ ∃ logev, (cs.Start env tr).2.2 = hStartS ++ [Event.pgStart rS.2, logev] := by
    rw [hS]
    exact ⟨rfl, logS, rfl⟩
  refine ⟨⟨?_, ?_⟩, ?_, ?_, hNerr, hNok, hSok⟩
  · cases hpipe : env.stdinPipe hPipe rN.2 with
    | error e => rw [notify_Start_pipe_error env cn tr e hpipe]
    | ok p =>
      obtain ⟨logN, hN⟩ := notify_Start_pipe_ok env cn tr p hpipe
      rw [hN]
  · rw [hS]
  · cases hpipe : env.stdinPipe hPipe rN.2 with
    | error e =>
      rw [(hNerr e hpipe).1]
      simp
    | ok p =>
      rw [(hNok p hpipe).1]
      simp
  · rw [hSok.1]

/-- Witness of C9: a failing `StdinPipe` (stdin variant) and a failing
`ProcessGroup.Start` (signal variant) both return the launch helper's buffer
with the collaborator's error; in the first no `ProcessGroup.Start` call is
made. -/
theorem Start_error_iff_witness :
    (NotifyCommand [] [] "//:app" [] false).Start noPipeEnv []
        = (("launched", some "exec: Stdin already set"),
            { NotifyCommand [] [] "//:app" [] false with pg := some 7 },
            newBuilder [] [] ++ [Event.start "//:app" [] (some false), Event.stdinPipe 7,
              Event.logErrorf "Error getting stdin pipe: %v" "exec: Stdin already set"])
    ∧ ((SignalCommand [] [] "//:app" [] false).Start noSpawnEnv []).1
        = ("launched", some "fork/exec: no such file or directory") := by
  have h := Start_error_iff noPipeEnv (NotifyCommand [] [] "//:app" [] false)
    (SignalCommand [] [] "//:app" [] false) []
  have h2 := Start_error_iff noSpawnEnv (NotifyCommand [] [] "//:app" [] false)
    (SignalCommand [] [] "//:app" [] false) []
  refine ⟨?_, ?_⟩
  · have h3 := h.2.2.2.1 "exec: Stdin already set" rfl
    exact Prod.ext (Prod.ext h.1.1 h3.1) (Prod.ext rfl h3.2)
  · exact Prod.ext h2.1.2 h2.2.2.2.2.2.1

/-- Appending a variable's own flag to an environment adds no entry for
another variable: the entries of `inherited ++ [flag]` for `name` are those of
`inherited` when `flag` does not start with `name=`. -/
theorem hasEntry_append_flag (name flag : String) (inherited : List String)
    (h : (name ++ "=").toList.isPrefixOf flag.toList = false) :
    hasEntry name (inherited ++ [flag]) = hasEntry name inherited := by
  simp only [hasEntry, List.any_append, List.any_cons, List.any_nil, h, Bool.or_false]

/-- C7, as the claim states it, fails: a stdin-variant supervisor started
with `IBAZEL_SIGNAL_CHANGES=y` in the inherited environment hands its
subprocess an environment with entries for both flags, and so does a
signal-variant supervisor started with `IBAZEL_NOTIFY_CHANGES=y` inherited. -/
theorem Start_environment_both_flags :
    ¬ (∀ E ∈ assignedEnvs ((NotifyCommand [] [] "//:app" [] false).Start
          nestedInSignalEnv []).2.2,
        "IBAZEL_NOTIFY_CHANGES=y" ∈ E ∧ hasEntry "IBAZEL_SIGNAL_CHANGES" E = false)
    ∧ ¬ (∀ E ∈ assignedEnvs ((SignalCommand [] [] "//:app" [] false).Start
          nestedInNotifyEnv []).2.2,
        "IBAZEL_SIGNAL_CHANGES=y" ∈ E ∧ hasEntry "IBAZEL_NOTIFY_CHANGES" E = false) := by
  constructor
  · intro h
    have h2 := (h ["PATH=/bin", "IBAZEL_SIGNAL_CHANGES=y", "IBAZEL_NOTIFY_CHANGES=y"]
      (by decide)).2
    revert h2
    decide
  · intro h
    have h2 := (h ["PATH=/bin", "IBAZEL_NOTIFY_CHANGES=y", "IBAZEL_SIGNAL_CHANGES=y"]
      (by decide)).2
    revert h2
    decide

/-- C7, amended: the environment `Start` gives the subprocess is the
inherited environment followed by the variant's own flag
(`IBAZEL_NOTIFY_CHANGES=y` in the stdin variant, once the stdin pipe is
obtained; `IBAZEL_SIGNAL_CHANGES=y` in the signal variant), and it is the only
environment assigned.  For every inherited environment it therefore contains
the variant's own flag, and it has an entry for the other variant's flag
exactly when the inherited environment has one. -/
theorem Start_environment (env : Env) (cn : notifyCommand) (cs : signalCommand)
    (tr : List Event) :
    let rN := env.start (tr ++ newBuilder cn.startupArgs cn.bazelArgs)
      cn.target cn.args (some false)
    let hPipe := tr ++ newBuilder cn.startupArgs cn.bazelArgs
      ++ [Event.start cn.target cn.args (some false)]
    let hEnvS := tr ++ newBuilder cs.startupArgs cs.bazelArgs
      ++ [Event.start cs.target cs.args none]
    (∀ p, env.stdinPipe hPipe rN.2 = .ok p →
        assignedEnvs ((cn.Start env tr).2.2.drop tr.length)
          = [env.environ (hPipe ++ [Event.stdinPipe rN.2]) ++ ["IBAZEL_NOTIFY_CHANGES=y"]])
    ∧ assignedEnvs ((cs.Start env tr).2.2.drop tr.length)
        = [env.environ hEnvS ++ ["IBAZEL_SIGNAL_CHANGES=y"]]
    ∧ ∀ inherited : List String,
        ("IBAZEL_NOTIFY_CHANGES=y" ∈ inherited ++ ["IBAZEL_NOTIFY_CHANGES=y"]
          ∧ hasEntry "IBAZEL_SIGNAL_CHANGES" (inherited ++ ["IBAZEL_NOTIFY_CHANGES=y"])
              = hasEntry "IBAZEL_SIGNAL_CHANGES" inherited)
        ∧ ("IBAZEL_SIGNAL_CHANGES=y" ∈ inherited ++ ["IBAZEL_SIGNAL_CHANGES=y"]
          ∧ hasEntry "IBAZEL_NOTIFY_CHANGES" (inherited ++ ["IBAZEL_SIGNAL_CHANGES=y"])
              = hasEntry "IBAZEL_NOTIFY_CHANGES" inherited) := by
  intro rN hPipe hEnvS
  refine ⟨?_, ?_, ?_⟩
  · intro p hp
    have hp2 : env.stdinPipe
        (tr ++ newBuilder cn.startupArgs cn.bazelArgs
          ++ [Event.start cn.target cn.args (some false)])
        (env.start (tr ++ newBuilder cn.startupArgs cn.bazelArgs)
          cn.target cn.args (some false)).2 = .ok p := hp
    unfold notifyCommand.Start
    simp only [hp2]
    split <;>
      simp [assignedEnvs, newBuilder, List.filterMap_append, hPipe, rN]
  · unfold signalCommand.Start
    simp only []
    split <;>
      simp [assignedEnvs, newBuilder, List.filterMap_append, hEnvS]
  · intro inherited
    exact ⟨⟨by simp, hasEntry_append_flag _ _ _ (by decide)⟩,
      ⟨by simp, hasEntry_append_flag _ _ _ (by decide)⟩⟩

/-- Witness of C7, amended: with `PATH=/bin` inherited, each variant gives
its subprocess `PATH=/bin` followed by its own flag. -/
theorem Start_environment_witness :
    assignedEnvs (((NotifyCommand [] [] "//:app" [] false).Start liveEnv []).2.2.drop 0)
        = [["PATH=/bin", "IBAZEL_NOTIFY_CHANGES=y"]]
    ∧ assignedEnvs (((SignalCommand [] [] "//:app" [] false).Start liveEnv []).2.2.drop 0)
        = [["PATH=/bin", "IBAZEL_SIGNAL_CHANGES=y"]] :=
  have h := Start_environment liveEnv (NotifyCommand [] [] "//:app" [] false)
    (SignalCommand [] [] "//:app" [] false) []
  ⟨h.1 3 rfl, h.2.1⟩

/-! ## The stdin handle and the process group -/

/-- After the stdin variant's `Start`, the process group is present, and the
stdin handle is present unless a `StdinPipe` failure was logged. -/
theorem notify_Start_handlesAgree (env : Env) (c : notifyCommand) (tr : List Event)
    (hpipe : ∀ e, Event.logErrorf "Error getting stdin pipe: %v" e
      ∉ (c.Start env tr).2.2.drop tr.length) :
    (c.Start env tr).2.1.handlesAgree = true := by
  cases hp : env.stdinPipe
      (tr ++ newBuilder c.startupArgs c.bazelArgs
        ++ [Event.start c.target c.args (some false)])
      (env.start (tr ++ newBuilder c.startupArgs c.bazelArgs)
        c.target c.args (some false)).2 with
  | error e =>
    have h := hpipe e
    rw [notify_Start_pipe_error env c tr e hp] at h
    simp at h
  | ok p =>
    obtain ⟨logev, h⟩ := notify_Start_pipe_ok env c tr p hp
    rw [h]
    rfl

/-- A `NotifyOfChanges` of the stdin variant that finds the subprocess
running and completes leaves the supervisor record as it was. -/
theorem notify_running_record_unchanged (env : Env) (c c2 : notifyCommand)
    (tr tr2 : List Event) (b : Buffer)
    (hrun : c.IsSubprocessRunning env tr = true)
    (h : c.NotifyOfChanges env tr = .ok (b, c2, tr2)) : c2 = c := by
  unfold notifyCommand.NotifyOfChanges at h
  simp only [hrun, Bool.not_true, Bool.false_eq_true, if_false] at h
  cases hs : c.stdin with
  | none => simp [writeLine, hs] at h
  | some p =>
    simp only [writeLine, hs] at h
    split at h
    · simp only [Except.ok.injEq, Prod.mk.injEq] at h
      exact h.2.1.symm
    · simp only [Except.ok.injEq, Prod.mk.injEq] at h
      exact h.2.1.symm

/-- C10, as the claim states it, fails: from a fresh stdin-variant supervisor,
`Start` followed by `Terminate` of the live process group ends with the
process group absent and the stdin handle still present; and a single `Start`
whose `StdinPipe` fails ends with the process group present and the stdin
handle absent. -/
theorem handlesAgree_not_invariant :
    ¬ (∀ ops c tr,
        notifyCommand.run liveEnv ops (NotifyCommand [] [] "//:app" [] false, [])
          = .ok (c, tr) → c.handlesAgree = true)
    ∧ ¬ (∀ ops c tr,
        notifyCommand.run noPipeEnv ops (NotifyCommand [] [] "//:app" [] false, [])
          = .ok (c, tr) → c.handlesAgree = true) := by
  constructor
  · intro h
    have h2 := h [Op.Start, Op.Terminate]
      { NotifyCommand [] [] "//:app" [] false with stdin := some 3 } _ rfl
    revert h2
    decide
  · intro h
    have h2 := h [Op.Start]
      { NotifyCommand [] [] "//:app" [] false with pg := some 7 } _ rfl
    revert h2
    decide

/-- C10, amended: in the stdin variant, "the stdin handle is present if and
only if the process group is present" holds in the freshly constructed
supervisor and is preserved by every operation that completes (`Start`,
`NotifyOfChanges`, `Terminate`, `IsSubprocessRunning`), provided the operation
is not a `Terminate` of a running subprocess and no `StdinPipe` failure is
logged during it. -/
theorem handlesAgree_fresh_and_preserved :
    (∀ sa ba t a k, (NotifyCommand sa ba t a k).handlesAgree = true)
    ∧ ∀ (env : Env) (op : Op) (c c2 : notifyCommand) (tr tr2 : List Event),
        c.handlesAgree = true →
        notifyCommand.step env op (c, tr) = .ok (c2, tr2) →
        (op = Op.Terminate → c.IsSubprocessRunning env tr = false) →
        (∀ e, Event.logErrorf "Error getting stdin pipe: %v" e ∉ tr2.drop tr.length) →
        c2.handlesAgree = true := by
  refine ⟨fun _ _ _ _ _ => rfl, ?_⟩
  intro env op c c2 tr tr2 hinv hstep hterm hpipe
  cases op with
  | Start =>
    simp only [notifyCommand.step, Except.ok.injEq, Prod.mk.injEq] at hstep
    obtain ⟨rfl, rfl⟩ := hstep
    exact notify_Start_handlesAgree env c tr hpipe
  | NotifyOfChanges =>
    cases hrun : c.IsSubprocessRunning env tr with
    | false =>
      have hn : c.NotifyOfChanges env tr
          = .ok ((c.Start env tr).1.1, (c.Start env tr).2.1, (c.Start env tr).2.2) := by
        simp [notifyCommand.NotifyOfChanges, hrun]
      simp only [notifyCommand.step, hn, Except.ok.injEq, Prod.mk.injEq] at hstep
      obtain ⟨rfl, rfl⟩ := hstep
      exact notify_Start_handlesAgree env c tr hpipe
    | true =>
      cases hn : c.NotifyOfChanges env tr with
      | error f => simp [notifyCommand.step, hn] at hstep
      | ok r =>
        simp only [notifyCommand.step, hn, Except.ok.injEq, Prod.mk.injEq] at hstep
        obtain ⟨rfl, rfl⟩ := hstep
        rw [notify_running_record_unchanged env c r.2.1 tr r.2.2 r.1 hrun hn]
        exact hinv
  | Terminate =>
    have hnot := hterm rfl
    cases hg : c.pg with
    | none =>
      cases hk : c.useKill <;>
        simp [notifyCommand.step, notifyCommand.Terminate, exitedGuard, callPG, hg, hk]
          at hstep
    | some g =>
      simp only [notifyCommand.IsSubprocessRunning, hg] at hnot
      simp [notifyCommand.step, notifyCommand.Terminate, exitedGuard, hg, hnot] at hstep
      rw [← hstep.1]
      exact hinv
  | IsSubprocessRunning =>
    simp only [notifyCommand.step, Except.ok.injEq, Prod.mk.injEq] at hstep
    rw [← hstep.1]
    exact hinv

/-- Witness of C10, amended: `Start` on a fresh supervisor with collaborators
that succeed ends with both handles present. -/
theorem handlesAgree_fresh_and_preserved_witness :
    (NotifyCommand [] [] "//:app" [] false).handlesAgree = true
    ∧ (ownedNotify false).handlesAgree = true :=
  ⟨handlesAgree_fresh_and_preserved.1 [] [] "//:app" [] false,
   handlesAgree_fresh_and_preserved.2 liveEnv Op.Start
    (NotifyCommand [] [] "//:app" [] false) (ownedNotify false) []
    (newBuilder [] [] ++ [Event.start "//:app" [] (some false), Event.stdinPipe 7,
      Event.setEnv 7 ["PATH=/bin", "IBAZEL_NOTIFY_CHANGES=y"], Event.pgStart 7,
      Event.logLog "Starting..."])
    rfl rfl (fun h => nomatch h) (by simp [newBuilder])⟩

/-! ## A running subprocess has its stdin pipe held -/

/-- The stdin variant's `Start` keeps `pipeBeforeSpawn`. -/
theorem notify_Start_pipeBeforeSpawn (env : Env) (henv : env.Spawning)
    (c : notifyCommand) (tr : List Event) :
    (c.Start env tr).2.1.pipeBeforeSpawn (c.Start env tr).2.2 := by
  cases hp : env.stdinPipe
      (tr ++ newBuilder c.startupArgs c.bazelArgs
        ++ [Event.start c.target c.args (some false)])
      (env.start (tr ++ newBuilder c.startupArgs c.bazelArgs)
        c.target c.args (some false)).2 with
  | error e =>
    rw [notify_Start_pipe_error env c tr e hp]
    intro g hg _
    simp only [Option.some.injEq] at hg
    subst hg
    have hfresh := henv.start_fresh (tr ++ newBuilder c.startupArgs c.bazelArgs)
      c.target c.args (some false)
    intro hmem
    simp only [List.mem_append, List.mem_cons, List.mem_singleton, List.not_mem_nil,
      or_false, reduceCtorEq] at hmem
    exact hfresh (List.mem_append.mpr hmem)
  | ok p =>
    obtain ⟨logev, h⟩ := notify_Start_pipe_ok env c tr p hp
    rw [h]
    intro g _ hnone
    simp at hnone

/-- Every operation of the stdin variant that completes keeps
`pipeBeforeSpawn`. -/
theorem notify_step_pipeBeforeSpawn (env : Env) (henv : env.Spawning) (op : Op)
    (c c2 : notifyCommand) (tr tr2 : List Event)
    (hinv : c.pipeBeforeSpawn tr)
    (hstep : notifyCommand.step env op (c, tr) = .ok (c2, tr2)) :
    c2.pipeBeforeSpawn tr2 := by
  cases op with
  | Start =>
    simp only [notifyCommand.step, Except.ok.injEq, Prod.mk.injEq] at hstep
    obtain ⟨rfl, rfl⟩ := hstep
    exact notify_Start_pipeBeforeSpawn env henv c tr
  | NotifyOfChanges =>
    cases hrun : c.IsSubprocessRunning env tr with
    | false =>
      have hn : c.NotifyOfChanges env tr
          = .ok ((c.Start env tr).1.1, (c.Start env tr).2.1, (c.Start env tr).2.2) := by
        simp [notifyCommand.NotifyOfChanges, hrun]
      simp only [notifyCommand.step, hn, Except.ok.injEq, Prod.mk.injEq] at hstep
      obtain ⟨rfl, rfl⟩ := hstep
      exact notify_Start_pipeBeforeSpawn env henv c tr
    | true =>
      cases hn : c.NotifyOfChanges env tr with
      | error f => simp [notifyCommand.step, hn] at hstep
      | ok r =>
        simp only [notifyCommand.step, hn, Except.ok.injEq, Prod.mk.injEq] at hstep
        obtain ⟨rfl, rfl⟩ := hstep
        rw [notify_running_record_unchanged env c r.2.1 tr r.2.2 r.1 hrun hn]
        intro g hg hnone
        exfalso
        simp only [notifyCommand.IsSubprocessRunning, hg] at hrun
        exact hinv g hg hnone (henv.running_started tr g hrun)
  | Terminate =>
    cases hg : c.pg with
    | none =>
      cases hk : c.useKill <;>
        simp [notifyCommand.step, notifyCommand.Terminate, exitedGuard, callPG, hg, hk]
          at hstep
    | some g =>
      cases hlive : env.subprocessRunning tr g with
      | false =>
        simp [notifyCommand.step, notifyCommand.Terminate, exitedGuard, hg, hlive] at hstep
        rw [← hstep.1, ← hstep.2]
        exact hinv
      | true =>
        cases hk : c.useKill <;>
          simp [notifyCommand.step, notifyCommand.Terminate, exitedGuard, callPG, hg,
            hlive, hk] at hstep <;>
          (intro g2 hg2 _; rw [← hstep.1] at hg2; simp at hg2)
  | IsSubprocessRunning =>
    simp only [notifyCommand.step, Except.ok.injEq, Prod.mk.injEq] at hstep
    rw [← hstep.1, ← hstep.2]
    exact hinv

/-- Every sequence of operations of the stdin variant that completes keeps
`pipeBeforeSpawn`. -/
theorem notify_run_pipeBeforeSpawn (env : Env) (henv : env.Spawning) (ops : List Op) :
    ∀ (c c2 : notifyCommand) (tr tr2 : List Event),
      c.pipeBeforeSpawn tr →
      notifyCommand.run env ops (c, tr) = .ok (c2, tr2) →
      c2.pipeBeforeSpawn tr2 := by
  induction ops with
  | nil =>
    intro c c2 tr tr2 hinv hrun
    simp only [notifyCommand.run, Except.ok.injEq, Prod.mk.injEq] at hrun
    rw [← hrun.1, ← hrun.2]
    exact hinv
  | cons op ops ih =>
    intro c c2 tr tr2 hinv hrun
    simp only [notifyCommand.run] at hrun
    cases hs : notifyCommand.step env op (c, tr) with
    | error f => simp [hs] at hrun
    | ok s2 =>
      simp only [hs] at hrun
      exact ih s2.1 c2 s2.2 tr2
        (notify_step_pipeBeforeSpawn env henv op c s2.1 tr s2.2 hinv hs) hrun

/-- In every state the stdin variant reaches from a freshly constructed
supervisor by a sequence of operations, a running subprocess has its stdin
pipe held, under the assumptions `Env.Spawning` on the helpers. -/
theorem notify_reachable_running_has_stdin (env : Env) (henv : env.Spawning)
    (ops : List Op) (sa ba : List String) (t : String) (a : List String) (k : Bool)
    (c : notifyCommand) (tr : List Event)
    (hreach : notifyCommand.run env ops (NotifyCommand sa ba t a k, []) = .ok (c, tr))
    (hrun : c.IsSubprocessRunning env tr = true) :
    ∃ p, c.stdin = some p := by
  have hinv : c.pipeBeforeSpawn tr :=
    notify_run_pipeBeforeSpawn env henv ops (NotifyCommand sa ba t a k) c [] tr
      (by intro g hg; simp [NotifyCommand] at hg) hreach
  cases hg : c.pg with
  | none => simp [notifyCommand.IsSubprocessRunning, hg] at hrun
  | some g =>
    simp only [notifyCommand.IsSubprocessRunning, hg] at hrun
    cases hs : c.stdin with
    | none => exact absurd (henv.running_started tr g hrun) (hinv g hg hs)
    | some p => exact ⟨p, rfl⟩

/-- Every handle `pg.Start()` was called on is below `freshPG`. -/
theorem lt_freshPG (h : List Event) (g : PG) (hmem : Event.pgStart g ∈ h) :
    g < freshPG h := by
  induction h with
  | nil => simp at hmem
  | cons e es ih =>
    rcases List.mem_cons.mp hmem with heq | htail
    · subst heq
      exact Nat.lt_of_lt_of_le (Nat.lt_succ_self g) (Nat.le_max_left _ _)
    · have hlt := ih htail
      cases e <;>
        first
        | exact hlt
        | exact Nat.lt_of_lt_of_le hlt (Nat.le_max_right _ _)

/-- The sample collaborators `spawningEnv` satisfy `Env.Spawning`. -/
theorem spawningEnv_Spawning : spawningEnv.Spawning where
  running_started := by
    intro h g hrun
    simpa [spawningEnv] using hrun
  start_fresh := by
    intro h t a f hmem
    exact Nat.lt_irrefl _ (lt_freshPG h _ hmem)

/-- With the collaborators `spawningEnv`, after `Start` on a fresh stdin
supervisor the subprocess is running and its stdin pipe is held. -/
theorem notify_reachable_running_has_stdin_example :
    ∃ c tr,
      notifyCommand.run spawningEnv [Op.Start] (NotifyCommand [] [] "//:app" [] false, [])
        = .ok (c, tr)
      ∧ c.IsSubprocessRunning spawningEnv tr = true
      ∧ ∃ p, c.stdin = some p :=
  ⟨{ NotifyCommand [] [] "//:app" [] false with pg := some 0, stdin := some 3 },
   newBuilder [] [] ++ [Event.start "//:app" [] (some false), Event.stdinPipe 0,
      Event.setEnv 0 ["PATH=/bin", "IBAZEL_NOTIFY_CHANGES=y"], Event.pgStart 0,
      Event.logLog "Starting..."],
   rfl, by decide,
   notify_reachable_running_has_stdin spawningEnv spawningEnv_Spawning
    [Op.Start] [] [] "//:app" [] false _ _ rfl (by decide)⟩

end Command
